import Mathlib

/-!
Shallow embedding of the miro-api authentication flow
(`src/app/api/v1/controllers/auth/auth_controller.py` and
`src/app/core/config.py`), together with theorems settling the
frozen claims about the natural-language specification.

Conventions of the embedding:
* Python `datetime` instants and `timedelta` durations are modelled as
  natural numbers of seconds.
* A JOSE token is modelled abstractly as the signed claim set together
  with the key and algorithm it was signed with; `jwt.decode` succeeds
  exactly when key and algorithm match and the `exp` claim (when
  present) has not passed, mirroring python-jose, which verifies the
  signature before validating the `exp` claim.
* Python exceptions are modelled with `Except`; an exception handler is
  a `match` on the `Except` value.
-/

namespace MiroApi

/-- Model of a Python exception relevant to the auth flow:
`HTTPException`, a SQLAlchemy store error (for example
`OperationalError`), a redis error, `IntegrityError`, and
`AttributeError` (raised when an attribute is looked up on an object
that does not define it). -/
inductive PyExc
  | httpException (status_code : Nat) (detail : String)
  | storeError
  | redisError
  | integrityError
  | attributeError
  deriving DecidableEq, Repr

/-- Error response surfaced to the HTTP caller: a status code and a
detail string, as carried by `fastapi.HTTPException`. -/
structure HTTPError where
  status_code : Nat
  detail : String
  deriving DecidableEq, Repr

/-- Model of the auth-relevant fields of `Settings`
(`app/core/config.py`, lines 13-43), with the defaults of that file.
The full declared field-name surface of the class is recorded
separately in `settingsFieldNames`. -/
structure Settings where
  SECRET_KEY : String
  ALGORITHM : String := "HS256"
  ACCESS_TOKEN_EXPIRE_MINUTES : Nat := 60 * 24 * 8
  deriving DecidableEq, Repr

/-- The complete list of field names declared on the `Settings` class in
`app/core/config.py` (lines 13-43).  Note that no refresh-token
lifetime field (such as `REFRESH_TOKEN_EXPIRE_DAYS`) and no cache
host/port fields are declared. -/
def settingsFieldNames : List String :=
  ["SECRET_KEY", "ALGORITHM", "ACCESS_TOKEN_EXPIRE_MINUTES",
   "BACKEND_CORS_ORIGINS", "PROJECT_NAME", "POSTGRES_USER",
   "POSTGRES_PASSWORD", "POSTGRES_DB", "SQLALCHEMY_DATABASE_URI",
   "USERS_OPEN_REGISTRATION", "DEBUG", "HOST", "PORT", "TIMEZONE",
   "ALLOW_ORIGINS", "ALLOW_CREDENTIALS", "ALLOW_METHODS",
   "ALLOW_HEADERS", "EXPOSE_HEADERS", "MAX_AGE", "page_size",
   "current_page", "VERSION", "CURRENT_VERSION", "TAGS_V1_METADATA",
   "TAGS_METADATA"]

/-- Value of a configuration attribute as seen by the auth flow: the
three fields the flow reads are modelled precisely, every other
declared field is opaque to it. -/
inductive ConfigVal
  | str (v : String)
  | nat (v : Nat)
  | other
  deriving DecidableEq, Repr

/-- Attribute table of a `settings` instance: each declared field name
of `app/core/config.py` paired with its value. -/
def Settings.attrs (s : Settings) : List (String × ConfigVal) :=
  [("SECRET_KEY", .str s.SECRET_KEY),
   ("ALGORITHM", .str s.ALGORITHM),
   ("ACCESS_TOKEN_EXPIRE_MINUTES", .nat s.ACCESS_TOKEN_EXPIRE_MINUTES),
   ("BACKEND_CORS_ORIGINS", .other), ("PROJECT_NAME", .other),
   ("POSTGRES_USER", .other), ("POSTGRES_PASSWORD", .other),
   ("POSTGRES_DB", .other), ("SQLALCHEMY_DATABASE_URI", .other),
   ("USERS_OPEN_REGISTRATION", .other), ("DEBUG", .other),
   ("HOST", .other), ("PORT", .other), ("TIMEZONE", .other),
   ("ALLOW_ORIGINS", .other), ("ALLOW_CREDENTIALS", .other),
   ("ALLOW_METHODS", .other), ("ALLOW_HEADERS", .other),
   ("EXPOSE_HEADERS", .other), ("MAX_AGE", .other),
   ("page_size", .other), ("current_page", .other),
   ("VERSION", .other), ("CURRENT_VERSION", .other),
   ("TAGS_V1_METADATA", .other), ("TAGS_METADATA", .other)]

/-- Python attribute access `settings.<name>`: returns the field's
value when the class declares the field, and raises `AttributeError`
otherwise (pydantic settings objects expose exactly their declared
fields). -/
def Settings.getattr (s : Settings) (name : String) : Except PyExc ConfigVal :=
  match s.attrs.lookup name with
  | some v => .ok v
  | none => .error .attributeError

/-- Python `timedelta(minutes=m)` in seconds. -/
def minutesToSeconds (m : Nat) : Nat := m * 60

/-- Python `timedelta(days=d)` in seconds. -/
def daysToSeconds (d : Nat) : Nat := d * 86400

/-- JWT claim set built by the auth flow: optional `sub`, `id` and
`exp` claims (`exp` is a timestamp in seconds). -/
structure Claims where
  sub : Option String := none
  id : Option String := none
  exp : Option Nat := none
  deriving DecidableEq, Repr

/-- Abstract model of a signed JOSE token: the claim set together with
the key and algorithm that signed it. -/
structure Jwt where
  claims : Claims
  key : String
  alg : String
  deriving DecidableEq, Repr

/-- Model of `jose.jwt.encode(claims, key, algorithm)`. -/
def jwt_encode (claims : Claims) (key : String) (alg : String) : Jwt :=
  ⟨claims, key, alg⟩

/-- Failure modes of `jose.jwt.decode`: `ExpiredSignatureError`
(a subclass of `JWTError`) for a valid signature whose `exp` claim has
passed, and a generic `JWTError` for everything else (wrong key, wrong
algorithm). -/
inductive JwtDecodeError
  | expiredSignature
  | jwtError
  deriving DecidableEq, Repr

/-- Model of `jose.jwt.decode(token, key, algorithms)` evaluated at
instant `now`: signature verification first (key must match and the
token's algorithm must be in the accepted list), then `exp` validation
(with jose's default zero leeway, a token is expired exactly when
`exp < now`). -/
def jwt_decode (token : Jwt) (key : String) (algs : List String) (now : Nat) :
    Except JwtDecodeError Claims :=
  if token.key = key ∧ token.alg ∈ algs then
    match token.claims.exp with
    | some e => if e < now then .error .expiredSignature else .ok token.claims
    | none => .ok token.claims
  else .error .jwtError

/-- Row of the `users` table (`app/models/user.py`): `password` holds
the bcrypt hash, never the plaintext. -/
structure UserRec where
  id : String
  username : String
  password : String
  email : String
  first_name : String
  last_name : String
  is_active : Bool := true
  is_superuser : Bool := false
  is_staff : Bool := false
  deriving DecidableEq, Repr

/-- Model of the `passlib` `CryptContext` collaborator: a one-way hash
and a verifier. -/
structure CryptContext where
  hash : String → String
  verify : String → String → Bool

/-- Model of the Credential Store collaborator: either a healthy
relational store holding a list of user rows, or an unavailable store
on which every operation raises. -/
inductive Store
  | healthy (rows : List UserRec)
  | down
  deriving DecidableEq, Repr

/-- Model of `database.query(User).filter(User.username == username).first()`:
the first row whose `username` matches, or a store exception when the
store is unavailable. -/
def Store.query : Store → String → Except PyExc (Option UserRec)
  | .healthy rows, username => .ok (rows.find? (fun u => u.username = username))
  | .down, _ => .error .storeError

/-- Model of `pdb.add(user); pdb.commit()` under the unique constraints
on `username` and `email` declared in `app/models/user.py`: a duplicate
raises `IntegrityError` and leaves the store unchanged; an unavailable
store raises a store exception. -/
def Store.insertUser : Store → UserRec → Except PyExc Store
  | .down, _ => .error .storeError
  | .healthy rows, u =>
      if rows.any (fun r => r.username = u.username ∨ r.email = u.email) then
        .error .integrityError
      else
        .ok (.healthy (rows ++ [u]))

/-- Model of the Token Cache collaborator (redis): either a healthy
key-value store whose entries carry a value and a TTL in seconds, or an
unavailable cache on which every operation raises. -/
inductive Redis
  | healthy (entries : List (String × Jwt × Nat))
  | down
  deriving DecidableEq, Repr

/-- Model of `redis.set(key, value, ex=ttl)`: overwrites any previous
entry for `key`; raises a redis exception when the cache is
unavailable. -/
def Redis.set : Redis → String → Jwt → Nat → Except PyExc Redis
  | .down, _, _, _ => .error .redisError
  | .healthy es, key, value, ex =>
      .ok (.healthy ((key, value, ex) :: es.filter (fun e => e.1 ≠ key)))

/-- Model of `redis.get(key)` on the cache state (used only to state
properties about which keys are set). -/
def Redis.get : Redis → String → Option Jwt
  | .down, _ => none
  | .healthy es, key => (es.find? (fun e => e.1 = key)).map (fun e => e.2.1)

/-- Body of `CreateUserRequest` (`app/api/v1/schemas/user_schemas.py`). -/
structure CreateUserRequest where
  username : String
  password : String
  email : String
  first_name : String
  last_name : String
  deriving DecidableEq, Repr

/-- Model of the `POST /api/v1/auth/` handler `create_user`
(auth_controller.py, lines 58-92): hashes the password, inserts the new
user and commits.  `IntegrityError` is mapped to a 400 "User already
exists" response, any other exception to a 500 "Internal server error"
response; in both cases the transaction is not committed, so the store
is returned unchanged.  `newId` stands for the `uuid4` primary-key
default generated at insertion.  Returns the response (the success
status string or the raised `HTTPException`) together with the
resulting store. -/
def create_user (pdb : Store) (create_user_request : CreateUserRequest)
    (ctx : CryptContext) (newId : String) : Except HTTPError String × Store :=
  let create_user_model : UserRec :=
    { id := newId
      username := create_user_request.username
      password := ctx.hash create_user_request.password
      email := create_user_request.email
      first_name := create_user_request.first_name
      last_name := create_user_request.last_name }
  match pdb.insertUser create_user_model with
  | .ok pdb' => (.ok "User created successfully", pdb')
  | .error .integrityError => (.error ⟨400, "User already exists"⟩, pdb)
  | .error _ => (.error ⟨500, "Internal server error"⟩, pdb)

/-- Model of `create_access_token(username, uuid, expires_delta)`
(auth_controller.py, lines 96-111): encodes `sub`, `id` and
`exp = utcnow() + expires_delta` with the configured secret key and
algorithm.  `now` stands for `datetime.utcnow()` and `expires_delta`
is in seconds. -/
def create_access_token (username : String) (uuid : String)
    (expires_delta : Nat) (s : Settings) (now : Nat) : Jwt :=
  jwt_encode
    { sub := some username, id := some uuid, exp := some (now + expires_delta) }
    s.SECRET_KEY s.ALGORITHM

/-- Try-block of `authenticate_user` (auth_controller.py, lines
182-190): queries the first user with the given username; a lookup
miss raises `HTTPException(404, "User not found")`; a bcrypt mismatch
returns `False` (modelled as `none`); otherwise the user is
returned. -/
def authenticate_user_try (username : String) (password : String)
    (database : Store) (ctx : CryptContext) : Except PyExc (Option UserRec) :=
  match database.query username with
  | .error e => .error e
  | .ok none => .error (.httpException 404 "User not found")
  | .ok (some user) =>
      if ctx.verify password user.password then .ok (some user) else .ok none

/-- Model of `authenticate_user` (auth_controller.py, lines 170-193):
runs the try-block and, through its `except Exception` clause, turns
every exception raised there (the 404 `HTTPException` included) into
the return value `False` (modelled as `none`). -/
def authenticate_user (username : String) (password : String)
    (database : Store) (ctx : CryptContext) : Option UserRec :=
  match authenticate_user_try username password database ctx with
  | .error _ => none
  | .ok v => v

/-- Model of the helper `_store_token` (auth_controller.py, lines
231-252): stores the access token under `access_token:<user_id>` with
TTL `access_token_expires`; a redis failure is surfaced as
`HTTPException(500, "Error storing access token")`. -/
def store_token (token : Jwt) (user_id : String)
    (access_token_expires : Nat) (redis : Redis) : Except HTTPError Redis :=
  match redis.set ("access_token:" ++ user_id) token access_token_expires with
  | .ok r => .ok r
  | .error _ => .error ⟨500, "Error storing access token"⟩

/-- Model of the helper `_store_refresh_token` (auth_controller.py,
lines 256-277): stores the refresh token under
`refresh_token:<user_id>` with TTL `refresh_token_expires`; a redis
failure is surfaced as `HTTPException(500, "Error storing refresh
token")`. -/
def store_refresh_token (token : Jwt) (user_id : String)
    (refresh_token_expires : Nat) (redis : Redis) : Except HTTPError Redis :=
  match redis.set ("refresh_token:" ++ user_id) token refresh_token_expires with
  | .ok r => .ok r
  | .error _ => .error ⟨500, "Error storing refresh token"⟩

/-- Result of the `POST /api/v1/auth/token` handler: either the body
`{access_token, token_type}` or the raised `HTTPException`. -/
inductive LoginResult
  | ok (access_token : Jwt) (token_type : String)
  | err (e : HTTPError)
  deriving DecidableEq, Repr

/-- Lines 140-152 of `login_for_access_token`, reached only once a
refresh lifetime value `refresh_days` has been obtained: mints the
access and the refresh token (both via `create_access_token`), writes
both into the cache, and returns the access token with token type
`bearer`.  An `HTTPException` raised by a cache write is re-raised as
is by the handler's `except HTTPException` clause. -/
def login_mint_and_store (user : UserRec) (refresh_days : Nat)
    (s : Settings) (now : Nat) (redis : Redis) : LoginResult × Redis :=
  let access_token_expires := minutesToSeconds s.ACCESS_TOKEN_EXPIRE_MINUTES
  let refresh_token_expires := daysToSeconds refresh_days
  let token := create_access_token user.username user.id access_token_expires s now
  let refresh_token :=
    create_access_token user.username user.id refresh_token_expires s now
  match store_token token user.id access_token_expires redis with
  | .error e => (.err e, redis)
  | .ok r1 =>
      match store_refresh_token refresh_token user.id refresh_token_expires r1 with
      | .error e => (.err e, r1)
      | .ok r2 => (.ok token "bearer", r2)

/-- Model of the `POST /api/v1/auth/token` handler
`login_for_access_token` (auth_controller.py, lines 115-166).
If `authenticate_user` yields no user, raises
`HTTPException(401, "Incorrect username or password")`.  Otherwise the
handler evaluates `settings.REFRESH_TOKEN_EXPIRE_DAYS` (line 139); the
`Settings` class of `app/core/config.py` declares no such field (see
`settingsFieldNames`), so this attribute access raises
`AttributeError`, which falls through to the handler's
`except Exception` clause and produces
`HTTPException(500, "Internal server error")`.  Had the access yielded
a number of days, the handler would continue with
`login_mint_and_store`.  Returns the response together with the
resulting cache state. -/
def login_for_access_token (username : String) (password : String)
    (database : Store) (ctx : CryptContext) (s : Settings) (now : Nat)
    (redis : Redis) : LoginResult × Redis :=
  match authenticate_user username password database ctx with
  | none => (.err ⟨401, "Incorrect username or password"⟩, redis)
  | some user =>
      match s.getattr "REFRESH_TOKEN_EXPIRE_DAYS" with
      | .ok (.nat refresh_days) => login_mint_and_store user refresh_days s now redis
      | .ok _ => (.err ⟨500, "Internal server error"⟩, redis)
      | .error _ => (.err ⟨500, "Internal server error"⟩, redis)

/-- Resolved identity returned by `get_current_user`: the dict
`{"username": ..., "id": ...}`. -/
structure Identity where
  username : String
  id : String
  deriving DecidableEq, Repr

/-- Model of `get_current_user` (auth_controller.py, lines 197-227):
decodes the bearer token with the configured secret key and algorithm
at instant `now`.  `ExpiredSignatureError` maps to
`HTTPException(401, "Signature has expired")`; any other `JWTError`,
and a decoded payload missing the `sub` or the `id` claim, map to
`HTTPException(401, "Invalid authentication credentials")`. -/
def get_current_user (token : Jwt) (s : Settings) (now : Nat) :
    Except HTTPError Identity :=
  match jwt_decode token s.SECRET_KEY [s.ALGORITHM] now with
  | .error .expiredSignature => .error ⟨401, "Signature has expired"⟩
  | .error .jwtError => .error ⟨401, "Invalid authentication credentials"⟩
  | .ok payload =>
      match payload.sub, payload.id with
      | some username, some user_id => .ok ⟨username, user_id⟩
      | _, _ => .error ⟨401, "Invalid authentication credentials"⟩

/-- The `get_current_user` dependency threaded through the service
state: the function body (auth_controller.py, lines 197-227) mentions
no cache handle, so running it as a request handler leaves the Token
Cache untouched and its result cannot depend on it. -/
def get_current_user_endpoint (token : Jwt) (s : Settings) (now : Nat)
    (redis : Redis) : Except HTTPError Identity × Redis :=
  (get_current_user token s now, redis)

/-- Concrete password-hashing context used to instantiate witnesses:
hashing prefixes a marker, verification re-hashes and compares. -/
def demoCtx : CryptContext :=
  { hash := fun p => "bcrypt$" ++ p
    verify := fun p h => h == "bcrypt$" ++ p }

/-- Concrete settings instance used to instantiate witnesses. -/
def demoSettings : Settings := { SECRET_KEY := "demo-secret" }

/-- Concrete registered user used to instantiate witnesses. -/
def demoAlice : UserRec :=
  { id := "uid-1"
    username := "alice"
    password := demoCtx.hash "pw12345678"
    email := "a@x.com"
    first_name := "A"
    last_name := "L" }

/-- Attribute access `settings.REFRESH_TOKEN_EXPIRE_DAYS` raises
`AttributeError` on every settings instance: `app/core/config.py`
declares no field of this name. -/
theorem getattr_refresh_days (s : Settings) :
    s.getattr "REFRESH_TOKEN_EXPIRE_DAYS" = .error .attributeError := rfl

/-- C1: the claim says a credential-verified login mints a refresh
token whose expiry comes from a configured refresh-token lifetime in
days, available on the configuration surface.  On the code this fails:
`Settings` declares no refresh-token lifetime field, the attribute
access on line 139 raises `AttributeError`, and every
credential-verified login therefore answers 500 "Internal server
error" without minting any token. -/
theorem C1_refresh_lifetime_not_configured (username password : String)
    (database : Store) (ctx : CryptContext) (s : Settings) (now : Nat)
    (redis : Redis) (user : UserRec)
    (hauth : authenticate_user username password database ctx = some user) :
    s.getattr "REFRESH_TOKEN_EXPIRE_DAYS" = .error .attributeError ∧
    login_for_access_token username password database ctx s now redis =
      (.err ⟨500, "Internal server error"⟩, redis) := by
  refine ⟨getattr_refresh_days s, ?_⟩
  unfold login_for_access_token
  rw [hauth, getattr_refresh_days]

/-- Witness for C1 at a concrete store, user and configuration. -/
theorem C1_refresh_lifetime_not_configured_witness :
    demoSettings.getattr "REFRESH_TOKEN_EXPIRE_DAYS" = .error .attributeError ∧
    login_for_access_token "alice" "pw12345678" (Store.healthy [demoAlice])
      demoCtx demoSettings 1000 (Redis.healthy []) =
      (.err ⟨500, "Internal server error"⟩, Redis.healthy []) :=
  C1_refresh_lifetime_not_configured "alice" "pw12345678"
    (Store.healthy [demoAlice]) demoCtx demoSettings 1000 (Redis.healthy [])
    demoAlice (by rfl)

/-- C2: the claim says a successful login issues an access token whose
decoded claims are `sub = username`, `id = user_id` and
`exp = issue time + ACCESS_TOKEN_EXPIRE_MINUTES` minutes.  On the code
this fails: with verified credentials the handler still answers 500
"Internal server error" (the refresh-lifetime settings access on line
139 raises before any token is returned), so no access token is ever
issued by the login handler. -/
theorem C2_no_access_token_issued (username password : String)
    (database : Store) (ctx : CryptContext) (s : Settings) (now : Nat)
    (redis : Redis) (user : UserRec)
    (hauth : authenticate_user username password database ctx = some user) :
    (login_for_access_token username password database ctx s now redis).1 =
      .err ⟨500, "Internal server error"⟩ ∧
    ∀ t token_type,
      (login_for_access_token username password database ctx s now redis).1 ≠
        .ok t token_type := by
  have hlogin : login_for_access_token username password database ctx s now redis =
      (.err ⟨500, "Internal server error"⟩, redis) := by
    unfold login_for_access_token
    rw [hauth, getattr_refresh_days]
  refine ⟨by rw [hlogin], ?_⟩
  intro t token_type
  rw [hlogin]
  simp

/-- Witness for C2 at a concrete store, user and configuration. -/
theorem C2_no_access_token_issued_witness :
    (login_for_access_token "alice" "pw12345678" (Store.healthy [demoAlice])
        demoCtx demoSettings 2000 (Redis.healthy [])).1 =
      .err ⟨500, "Internal server error"⟩ ∧
    ∀ t token_type,
      (login_for_access_token "alice" "pw12345678" (Store.healthy [demoAlice])
          demoCtx demoSettings 2000 (Redis.healthy [])).1 ≠
        .ok t token_type :=
  C2_no_access_token_issued "alice" "pw12345678" (Store.healthy [demoAlice])
    demoCtx demoSettings 2000 (Redis.healthy []) demoAlice (by rfl)

/-- C3: a login whose username matches no stored user fails with 401
and only the generic detail "Incorrect username or password" (the 404
raised inside `authenticate_user` is swallowed by its own
`except Exception` clause, which returns `False`), the cache is left
unchanged and no token is returned. -/
theorem C3_unknown_username_generic_401 (username password : String)
    (rows : List UserRec) (ctx : CryptContext) (s : Settings) (now : Nat)
    (redis : Redis)
    (hmiss : rows.find? (fun u => u.username = username) = none) :
    login_for_access_token username password (Store.healthy rows) ctx s now redis =
      (.err ⟨401, "Incorrect username or password"⟩, redis) ∧
    ∀ t token_type,
      (login_for_access_token username password (Store.healthy rows) ctx s now
          redis).1 ≠ .ok t token_type := by
  have hq : Store.query (Store.healthy rows) username = .ok none := by
    show Except.ok (rows.find? (fun u => u.username = username)) = .ok none
    rw [hmiss]
  have hauth : authenticate_user username password (Store.healthy rows) ctx = none := by
    unfold authenticate_user authenticate_user_try
    rw [hq]
  have hlogin : login_for_access_token username password (Store.healthy rows) ctx
      s now redis = (.err ⟨401, "Incorrect username or password"⟩, redis) := by
    unfold login_for_access_token
    rw [hauth]
  refine ⟨hlogin, ?_⟩
  intro t token_type
  rw [hlogin]
  simp

/-- Witness for C3 with a store that does not contain the requested
username. -/
theorem C3_unknown_username_generic_401_witness :
    login_for_access_token "bob" "whatever8" (Store.healthy [demoAlice]) demoCtx
      demoSettings 1000 (Redis.healthy []) =
      (.err ⟨401, "Incorrect username or password"⟩, Redis.healthy []) ∧
    ∀ t token_type,
      (login_for_access_token "bob" "whatever8" (Store.healthy [demoAlice])
          demoCtx demoSettings 1000 (Redis.healthy [])).1 ≠ .ok t token_type :=
  C3_unknown_username_generic_401 "bob" "whatever8" [demoAlice] demoCtx
    demoSettings 1000 (Redis.healthy []) (by rfl)

/-- C4 counterexample: with the Credential Store unavailable, the
concrete login below answers 401 "Incorrect username or password",
not the 500 "Internal server error" the claim requires
(`authenticate_user` swallows the store exception and returns `False`,
which the handler maps to the bad-credentials response). -/
theorem C4_store_down_counterexample :
    (login_for_access_token "alice" "pw12345678" Store.down demoCtx demoSettings
        1000 (Redis.healthy [])).1 =
      LoginResult.err ⟨401, "Incorrect username or password"⟩ ∧
    (login_for_access_token "alice" "pw12345678" Store.down demoCtx demoSettings
        1000 (Redis.healthy [])).1 ≠
      LoginResult.err ⟨500, "Internal server error"⟩ :=
  ⟨rfl, by decide⟩

/-- C4 amended: whenever the Credential Store is unavailable during
login, the lookup exception is caught inside `authenticate_user`, which
returns `False`, so the login operation fails with 401 "Incorrect
username or password" (the Unauthorized class), not with the Internal
class, and the cache is left unchanged. -/
theorem C4_store_down_unauthorized (username password : String)
    (ctx : CryptContext) (s : Settings) (now : Nat) (redis : Redis) :
    login_for_access_token username password Store.down ctx s now redis =
      (.err ⟨401, "Incorrect username or password"⟩, redis) := rfl

/-- C5: a login with an existing username and a password that does not
verify against the stored hash fails with 401 "Incorrect username or
password" and performs no cache write: the whole cache state is
returned unchanged, in particular the `access_token:` and
`refresh_token:` keys of that user. -/
theorem C5_wrong_password_401_no_cache_write (username password : String)
    (rows : List UserRec) (u : UserRec) (ctx : CryptContext) (s : Settings)
    (now : Nat) (redis : Redis)
    (hfind : rows.find? (fun r => r.username = username) = some u)
    (hverify : ctx.verify password u.password = false) :
    login_for_access_token username password (Store.healthy rows) ctx s now redis =
      (.err ⟨401, "Incorrect username or password"⟩, redis) ∧
    (login_for_access_token username password (Store.healthy rows) ctx s now
        redis).2.get ("access_token:" ++ u.id) =
      redis.get ("access_token:" ++ u.id) ∧
    (login_for_access_token username password (Store.healthy rows) ctx s now
        redis).2.get ("refresh_token:" ++ u.id) =
      redis.get ("refresh_token:" ++ u.id) := by
  have hq : Store.query (Store.healthy rows) username = .ok (some u) := by
    show Except.ok (rows.find? (fun r => r.username = username)) = .ok (some u)
    rw [hfind]
  have hauth : authenticate_user username password (Store.healthy rows) ctx = none := by
    unfold authenticate_user authenticate_user_try
    rw [hq]
    simp [hverify]
  have hlogin : login_for_access_token username password (Store.healthy rows) ctx
      s now redis = (.err ⟨401, "Incorrect username or password"⟩, redis) := by
    unfold login_for_access_token
    rw [hauth]
  exact ⟨hlogin, by rw [hlogin], by rw [hlogin]⟩

/-- Witness for C5: the stored user exists but the presented password
does not verify. -/
theorem C5_wrong_password_401_no_cache_write_witness :
    login_for_access_token "alice" "wrongpass1" (Store.healthy [demoAlice])
      demoCtx demoSettings 1000 (Redis.healthy []) =
      (.err ⟨401, "Incorrect username or password"⟩, Redis.healthy []) ∧
    (login_for_access_token "alice" "wrongpass1" (Store.healthy [demoAlice])
        demoCtx demoSettings 1000 (Redis.healthy [])).2.get
      ("access_token:" ++ demoAlice.id) =
      (Redis.healthy []).get ("access_token:" ++ demoAlice.id) ∧
    (login_for_access_token "alice" "wrongpass1" (Store.healthy [demoAlice])
        demoCtx demoSettings 1000 (Redis.healthy [])).2.get
      ("refresh_token:" ++ demoAlice.id) =
      (Redis.healthy []).get ("refresh_token:" ++ demoAlice.id) :=
  C5_wrong_password_401_no_cache_write "alice" "wrongpass1" [demoAlice] demoAlice
    demoCtx demoSettings 1000 (Redis.healthy []) (by rfl) (by rfl)

/-- C6: a bearer token whose `exp` timestamp has passed fails
current-user resolution with 401 "Signature has expired", while a
non-expired token signed with a different key fails with 401 "Invalid
authentication credentials"; the two failure responses are distinct. -/
theorem C6_expired_vs_invalid_distinct (s : Settings) (now : Nat)
    (t1 t2 : Jwt) (e1 e2 : Nat)
    (h1k : t1.key = s.SECRET_KEY) (h1a : t1.alg = s.ALGORITHM)
    (h1e : t1.claims.exp = some e1) (h1past : e1 < now)
    (h2k : t2.key ≠ s.SECRET_KEY) (h2e : t2.claims.exp = some e2)
    (h2live : now ≤ e2) :
    get_current_user t1 s now = .error ⟨401, "Signature has expired"⟩ ∧
    get_current_user t2 s now =
      .error ⟨401, "Invalid authentication credentials"⟩ ∧
    (HTTPError.mk 401 "Signature has expired") ≠
      (HTTPError.mk 401 "Invalid authentication credentials") := by
  refine ⟨?_, ?_, by decide⟩
  · simp [get_current_user, jwt_decode, h1k, h1a, h1e, h1past]
  · simp [get_current_user, jwt_decode, h2k]

/-- Witness for C6 with two concrete tokens: one expired but well
signed, one live but signed with another key. -/
theorem C6_expired_vs_invalid_distinct_witness :
    get_current_user ⟨⟨some "alice", some "uid-1", some 5⟩, "demo-secret", "HS256"⟩
        demoSettings 10 = .error ⟨401, "Signature has expired"⟩ ∧
    get_current_user ⟨⟨some "alice", some "uid-1", some 99⟩, "other-key", "HS256"⟩
        demoSettings 10 = .error ⟨401, "Invalid authentication credentials"⟩ ∧
    (HTTPError.mk 401 "Signature has expired") ≠
      (HTTPError.mk 401 "Invalid authentication credentials") :=
  C6_expired_vs_invalid_distinct demoSettings 10
    ⟨⟨some "alice", some "uid-1", some 5⟩, "demo-secret", "HS256"⟩
    ⟨⟨some "alice", some "uid-1", some 99⟩, "other-key", "HS256"⟩
    5 99 rfl rfl rfl (by decide) (by decide) rfl (by decide)

/-- C7: registration maps a uniqueness violation at persistence to 400
"User already exists" while leaving the store unchanged (nothing is
partially persisted), and maps any other persistence failure to 500
"Internal server error". -/
theorem C7_duplicate_conflict_other_internal (rows : List UserRec)
    (req : CreateUserRequest) (ctx : CryptContext) (newId : String)
    (hdup : rows.any (fun r => r.username = req.username ∨ r.email = req.email) = true) :
    create_user (Store.healthy rows) req ctx newId =
      (.error ⟨400, "User already exists"⟩, Store.healthy rows) ∧
    create_user Store.down req ctx newId =
      (.error ⟨500, "Internal server error"⟩, Store.down) := by
  constructor
  · have hdup' := hdup
    simp only [List.any_eq_true, decide_eq_true_eq] at hdup'
    simp [create_user, Store.insertUser, hdup']
  · rfl

/-- Witness for C7: registering a second "alice" against a store that
already holds one. -/
theorem C7_duplicate_conflict_other_internal_witness :
    create_user (Store.healthy [demoAlice])
        ⟨"alice", "password99", "other@x.com", "B", "M"⟩ demoCtx "uid-2" =
      (.error ⟨400, "User already exists"⟩, Store.healthy [demoAlice]) ∧
    create_user Store.down ⟨"alice", "password99", "other@x.com", "B", "M"⟩
        demoCtx "uid-2" =
      (.error ⟨500, "Internal server error"⟩, Store.down) :=
  C7_duplicate_conflict_other_internal [demoAlice]
    ⟨"alice", "password99", "other@x.com", "B", "M"⟩ demoCtx "uid-2" (by decide)

/-- C8: encoding a token with `create_access_token` and decoding it
with the same secret key and algorithm before the expiry time
reproduces the original `sub` and `id` claims exactly. -/
theorem C8_encode_decode_roundtrip (username uuid : String)
    (expires_delta : Nat) (s : Settings) (now t : Nat)
    (hpos : 0 < expires_delta) (hbefore : t < now + expires_delta) :
    jwt_decode (create_access_token username uuid expires_delta s now)
        s.SECRET_KEY [s.ALGORITHM] t =
      .ok ⟨some username, some uuid, some (now + expires_delta)⟩ ∧
    ∀ c, jwt_decode (create_access_token username uuid expires_delta s now)
        s.SECRET_KEY [s.ALGORITHM] t = .ok c →
      c.sub = some username ∧ c.id = some uuid := by
  have hnotlt : ¬ (now + expires_delta < t) := by omega
  have hdec : jwt_decode (create_access_token username uuid expires_delta s now)
      s.SECRET_KEY [s.ALGORITHM] t =
      .ok ⟨some username, some uuid, some (now + expires_delta)⟩ := by
    simp [jwt_decode, create_access_token, jwt_encode, hnotlt]
  refine ⟨hdec, ?_⟩
  intro c hc
  rw [hdec] at hc
  injection hc with h
  subst h
  exact ⟨rfl, rfl⟩

/-- Witness for C8 at concrete claims, lifetime and decode instant. -/
theorem C8_encode_decode_roundtrip_witness :
    jwt_decode (create_access_token "alice" "uid-1" 60 demoSettings 0)
        demoSettings.SECRET_KEY [demoSettings.ALGORITHM] 30 =
      .ok ⟨some "alice", some "uid-1", some (0 + 60)⟩ ∧
    ∀ c, jwt_decode (create_access_token "alice" "uid-1" 60 demoSettings 0)
        demoSettings.SECRET_KEY [demoSettings.ALGORITHM] 30 = .ok c →
      c.sub = some "alice" ∧ c.id = some "uid-1" :=
  C8_encode_decode_roundtrip "alice" "uid-1" 60 demoSettings 0 30
    (by decide) (by decide)

/-- C9: current-user resolution is a pure computation over the token,
the secret key, the algorithm and the current time: run on any two
Token Cache states it returns the same result, and it leaves each
cache state exactly as it was. -/
theorem C9_cache_noninterference (token : Jwt) (s : Settings) (now : Nat)
    (r1 r2 : Redis) :
    (get_current_user_endpoint token s now r1).1 =
      (get_current_user_endpoint token s now r2).1 ∧
    (get_current_user_endpoint token s now r1).2 = r1 ∧
    (get_current_user_endpoint token s now r2).2 = r2 :=
  ⟨rfl, rfl, rfl⟩

/-- C10: the claim says every successful login issues a refresh token
(with the same claim structure and signing key as an access token)
that current-user resolution accepts until its longer expiry.  On the
code this fails: with verified credentials the login handler answers
500 before reaching the minting calls, so no refresh token is ever
written (the `refresh_token:` cache key is untouched) and none is
returned.  The last conjunct records what lines 142-144 would produce
had the flow got there: a token minted by `create_access_token` with a
day-based lifetime is accepted by `get_current_user` and resolves to
the same identity at any instant up to its expiry. -/
theorem C10_refresh_token_never_minted (username password : String)
    (database : Store) (ctx : CryptContext) (s : Settings) (now : Nat)
    (redis : Redis) (user : UserRec)
    (hauth : authenticate_user username password database ctx = some user) :
    (login_for_access_token username password database ctx s now redis).2.get
        ("refresh_token:" ++ user.id) =
      redis.get ("refresh_token:" ++ user.id) ∧
    (login_for_access_token username password database ctx s now redis).1 =
      .err ⟨500, "Internal server error"⟩ ∧
    ∀ refresh_days decode_time,
      decode_time ≤ now + daysToSeconds refresh_days →
      get_current_user
          (create_access_token user.username user.id
            (daysToSeconds refresh_days) s now) s decode_time =
        .ok ⟨user.username, user.id⟩ := by
  have hlogin : login_for_access_token username password database ctx s now redis =
      (.err ⟨500, "Internal server error"⟩, redis) := by
    unfold login_for_access_token
    rw [hauth, getattr_refresh_days]
  refine ⟨by rw [hlogin], by rw [hlogin], ?_⟩
  intro refresh_days decode_time ht
  have hnotlt : ¬ (now + daysToSeconds refresh_days < decode_time) := by omega
  simp [get_current_user, jwt_decode, create_access_token, jwt_encode, hnotlt]

/-- Witness for C10 at a concrete store, user and configuration. -/
theorem C10_refresh_token_never_minted_witness :
    (login_for_access_token "alice" "pw12345678" (Store.healthy [demoAlice])
        demoCtx demoSettings 3000 (Redis.healthy [])).2.get
      ("refresh_token:" ++ demoAlice.id) =
      (Redis.healthy []).get ("refresh_token:" ++ demoAlice.id) ∧
    (login_for_access_token "alice" "pw12345678" (Store.healthy [demoAlice])
        demoCtx demoSettings 3000 (Redis.healthy [])).1 =
      .err ⟨500, "Internal server error"⟩ ∧
    ∀ refresh_days decode_time,
      decode_time ≤ 3000 + daysToSeconds refresh_days →
      get_current_user
          (create_access_token demoAlice.username demoAlice.id
            (daysToSeconds refresh_days) demoSettings 3000) demoSettings
          decode_time =
        .ok ⟨demoAlice.username, demoAlice.id⟩ :=
  C10_refresh_token_never_minted "alice" "pw12345678"
    (Store.healthy [demoAlice]) demoCtx demoSettings 3000 (Redis.healthy [])
    demoAlice (by rfl)

end MiroApi
